import Mathlib

/-!
# Lights HAL (`liblights/lights.c`): shallow embedding and verified properties

The C module drives three LED channels (red, green, blue), the LCD backlight
and the button backlight by writing values to sysfs control files.  Three
logical states (attention, notification, battery) are stored in globals and
arbitrated by priority onto the LED cluster.

Embedding conventions:

* `unsigned int` and non-negative `int` values are `Nat`; signed `int` values
  that may be negative are `Int`.  No arithmetic of the module can overflow:
  every colour is masked to at most 24 bits before it is used.
* A pointer `struct light_device_t*` is an `Option`; `none` is `NULL`.
* The file system is an environment `Env` that decides, for every call of
  `write_int` / `write_str`, whether `open` and `write` succeed.  Every call is
  appended to `IOState.trace`, in program order, whatever its outcome.
* The file-scope globals and the function-local statics are explicit state.
* `pthread_mutex_lock` / `unlock` are not modelled: the embedding is
  sequential.
-/

namespace Lights

/-! ## Data model -/

/-- Modelled from the spec: `struct light_state_t` is declared in
`hardware/lights.h`, which is not part of the repository.  The spec (section 3)
gives it a 32-bit `color` and the fields `flashMode`, `flashOnMS`,
`flashOffMS`; the source reads them as `unsigned int` and `int`. -/
structure light_state_t where
  color : Nat
  flashMode : Int
  flashOnMS : Int
  flashOffMS : Int
deriving DecidableEq

/-- Modelled from the spec: enumerator of `flashMode` (spec section 3, `None`),
declared in `hardware/lights.h`, which is not part of the repository. -/
def LIGHT_FLASH_NONE : Int := 0

/-- Modelled from the spec: enumerator of `flashMode` (spec section 3, `Timed`),
declared in `hardware/lights.h`, which is not part of the repository. -/
def LIGHT_FLASH_TIMED : Int := 1

/-- Modelled from the spec: `struct light_device_t` is declared in
`hardware/lights.h`; the setters only test the pointer against `NULL`. -/
structure light_device_t where
  version : Nat
deriving DecidableEq

/-- The fourteen control files named at lines 43-86 of `lights.c`. -/
inductive Endpoint where
  | RED_LED_FILE
  | RED_TRIGGER_FILE
  | RED_DELAY_ON_FILE
  | RED_DELAY_OFF_FILE
  | GREEN_LED_FILE
  | GREEN_TRIGGER_FILE
  | GREEN_DELAY_ON_FILE
  | GREEN_DELAY_OFF_FILE
  | BLUE_LED_FILE
  | BLUE_TRIGGER_FILE
  | BLUE_DELAY_ON_FILE
  | BLUE_DELAY_OFF_FILE
  | LCD_FILE
  | BUTTONS_FILE
deriving DecidableEq

open Endpoint

/-- The path string of each control file, as initialised in the source. -/
def Endpoint.path : Endpoint → String
  | RED_LED_FILE => "/sys/class/leds/red/brightness"
  | RED_TRIGGER_FILE => "/sys/class/leds/red/trigger"
  | RED_DELAY_ON_FILE => "/sys/class/leds/red/delay_on"
  | RED_DELAY_OFF_FILE => "/sys/class/leds/red/delay_off"
  | GREEN_LED_FILE => "/sys/class/leds/green/brightness"
  | GREEN_TRIGGER_FILE => "/sys/class/leds/green/trigger"
  | GREEN_DELAY_ON_FILE => "/sys/class/leds/green/delay_on"
  | GREEN_DELAY_OFF_FILE => "/sys/class/leds/green/delay_off"
  | BLUE_LED_FILE => "/sys/class/leds/blue/brightness"
  | BLUE_TRIGGER_FILE => "/sys/class/leds/blue/trigger"
  | BLUE_DELAY_ON_FILE => "/sys/class/leds/blue/delay_on"
  | BLUE_DELAY_OFF_FILE => "/sys/class/leds/blue/delay_off"
  | LCD_FILE => "/sys/class/leds/lcd-backlight/brightness"
  | BUTTONS_FILE => "/sys/class/leds/button-backlight/brightness"

/-- One call of `write_int (path, value)` or `write_str (path, str)`. -/
inductive Write where
  | int (path : Endpoint) (value : Int)
  | str (path : Endpoint) (str : String)
deriving DecidableEq

/-- What the operating system does with one write call: both `open` and
`write` succeed, or `open` fails with `errno`, or `write` returns -1 with
`errno`. -/
inductive Outcome where
  | ok
  | open_failed (errno : Nat)
  | write_failed (errno : Nat)
deriving DecidableEq

/-- The environment: the outcome of the call `w` when `n` calls were made
before it. -/
abbrev Env := Nat → Write → Outcome

/-- The environment in which every call succeeds. -/
def Env.allOk : Env := fun _ _ => Outcome.ok

/-- The observable input/output state: the calls made so far (oldest first),
the messages logged with `ALOGE`, and the two function-local statics
`already_warned` of `write_int` and `write_str`. -/
structure IOState where
  trace : List Write
  log : List String
  write_int_already_warned : Int
  write_str_already_warned : Int
deriving DecidableEq

/-- The state at process start: nothing written, nothing logged, both statics
zero. -/
def IOState.init : IOState :=
  { trace := [], log := [], write_int_already_warned := 0, write_str_already_warned := 0 }

/-- The file-scope globals `g_attention`, `g_notification`, `g_battery`
(lines 39-41). -/
structure Globals where
  g_attention : light_state_t
  g_notification : light_state_t
  g_battery : light_state_t
deriving DecidableEq

/-- The zero-initialised state of a static `light_state_t`. -/
def light_state_t.zero : light_state_t :=
  { color := 0, flashMode := 0, flashOnMS := 0, flashOffMS := 0 }

/-- The globals at process start (static storage is zero-initialised). -/
def Globals.init : Globals :=
  { g_attention := light_state_t.zero, g_notification := light_state_t.zero,
    g_battery := light_state_t.zero }

/-! ## The functions of `lights.c` -/

/-- Source `write_int` (lines 98-118). -/
def write_int (env : Env) (path : Endpoint) (value : Int) (io : IOState) : Int × IOState :=
  let io1 : IOState := { io with trace := io.trace ++ [Write.int path value] }
  match env io.trace.length (Write.int path value) with
  | Outcome.ok => (0, io1)
  | Outcome.write_failed errno => (-(errno : Int), io1)
  | Outcome.open_failed errno =>
    if io.write_int_already_warned = 0 then
      (-(errno : Int),
        { io1 with
          log := io1.log ++ ["write_int failed to open " ++ path.path ++ "\n"]
          write_int_already_warned := 1 })
    else
      (-(errno : Int), io1)

/-- Source `write_str` (lines 120-140); its message also says `write_int`. -/
def write_str (env : Env) (path : Endpoint) (str : String) (io : IOState) : Int × IOState :=
  let io1 : IOState := { io with trace := io.trace ++ [Write.str path str] }
  match env io.trace.length (Write.str path str) with
  | Outcome.ok => (0, io1)
  | Outcome.write_failed errno => (-(errno : Int), io1)
  | Outcome.open_failed errno =>
    if io.write_str_already_warned = 0 then
      (-(errno : Int),
        { io1 with
          log := io1.log ++ ["write_int failed to open " ++ path.path ++ "\n"]
          write_str_already_warned := 1 })
    else
      (-(errno : Int), io1)

/-- Source `is_lit` (lines 142-146): `state->color & 0x00ffffff` as an `int`. -/
def is_lit (state : light_state_t) : Int :=
  ((state.color &&& 0x00ffffff : Nat) : Int)

/-- Source `rgb_to_brightness` (lines 148-154).  The masked colour is below
`2^24`, so the `int` arithmetic is the arithmetic of `Nat`. -/
def rgb_to_brightness (state : light_state_t) : Int :=
  let color : Nat := state.color &&& 0x00ffffff
  (((77 * ((color >>> 16) &&& 0x00ff)
      + 150 * ((color >>> 8) &&& 0x00ff) + 29 * (color &&& 0x00ff)) >>> 8 : Nat) : Int)

/-- Source `set_light_backlight` (lines 156-169). -/
def set_light_backlight (env : Env) (dev : Option light_device_t) (state : light_state_t)
    (g : Globals) (io : IOState) : Int × Globals × IOState :=
  match dev with
  | none => (-1, g, io)
  | some _ =>
    let brightness := rgb_to_brightness state
    let r := write_int env LCD_FILE brightness io
    (r.1, g, r.2)

/-- Source `set_light_buttons` (lines 171-184). -/
def set_light_buttons (env : Env) (dev : Option light_device_t) (state : light_state_t)
    (g : Globals) (io : IOState) : Int × Globals × IOState :=
  match dev with
  | none => (-1, g, io)
  | some _ =>
    let on_ := is_lit state
    let r := write_int env BUTTONS_FILE (if on_ ≠ 0 then 255 else 0) io
    (r.1, g, r.2)

/-- The locals `onMS` and `offMS` after the `switch` of
`set_speaker_light_locked` (lines 198-208). -/
def flash_durations (state : light_state_t) : Int × Int :=
  if state.flashMode = LIGHT_FLASH_TIMED then (state.flashOnMS, state.flashOffMS)
  else (0, 0)

/-- The local `blink` of `set_speaker_light_locked` (line 218):
`onMS > 0 && offMS > 0`. -/
def speaker_blink (state : light_state_t) : Bool :=
  decide (0 < (flash_durations state).1) && decide (0 < (flash_durations state).2)

/-- The local `red` (line 215). -/
def speaker_red (state : light_state_t) : Nat := (state.color >>> 16) &&& 0xFF

/-- The local `green` (line 216). -/
def speaker_green (state : light_state_t) : Nat := (state.color >>> 8) &&& 0xFF

/-- The local `blue` (line 217). -/
def speaker_blue (state : light_state_t) : Nat := state.color &&& 0xFF

/-- The six unconditional writes of `set_speaker_light_locked`
(lines 220-225); the return codes are discarded. -/
def speaker_reset (env : Env) (io : IOState) : IOState :=
  let io := (write_int env RED_LED_FILE 0 io).2
  let io := (write_str env RED_TRIGGER_FILE "none" io).2
  let io := (write_int env GREEN_LED_FILE 0 io).2
  let io := (write_str env GREEN_TRIGGER_FILE "none" io).2
  let io := (write_int env BLUE_LED_FILE 0 io).2
  (write_str env BLUE_TRIGGER_FILE "none" io).2

/-- The `if (blink)` block of `set_speaker_light_locked` (lines 228-244). -/
def speaker_blink_branch (env : Env) (red green blue : Nat) (onMS offMS : Int)
    (io : IOState) : IOState :=
  let io :=
    if red ≥ 128 then
      let io := (write_str env RED_TRIGGER_FILE "timer" io).2
      let io := (write_int env RED_DELAY_ON_FILE onMS io).2
      (write_int env RED_DELAY_OFF_FILE offMS io).2
    else io
  let io :=
    if green ≥ 128 ∧ red < 128 ∧ blue < 128 then
      let io := (write_str env GREEN_TRIGGER_FILE "timer" io).2
      let io := (write_int env GREEN_DELAY_ON_FILE onMS io).2
      (write_int env GREEN_DELAY_OFF_FILE offMS io).2
    else io
  if blue ≥ 128 then
    let io := (write_str env BLUE_TRIGGER_FILE "timer" io).2
    let io := (write_int env BLUE_DELAY_ON_FILE onMS io).2
    (write_int env BLUE_DELAY_OFF_FILE offMS io).2
  else io

/-- The `else` block of `set_speaker_light_locked` (lines 247-255). -/
def speaker_steady_branch (env : Env) (red green blue : Nat) (io : IOState) : IOState :=
  let io := if red ≥ 128 then (write_int env RED_LED_FILE 255 io).2 else io
  let io := if green ≥ 128 then (write_int env GREEN_LED_FILE 255 io).2 else io
  if blue ≥ 128 then (write_int env BLUE_LED_FILE 255 io).2 else io

/-- Source `set_speaker_light_locked` (lines 186-259). -/
def set_speaker_light_locked (env : Env) (dev : Option light_device_t)
    (state : light_state_t) (io : IOState) : Int × IOState :=
  match dev with
  | none => (-1, io)
  | some _ =>
    let onMS := (flash_durations state).1
    let offMS := (flash_durations state).2
    let red := speaker_red state
    let green := speaker_green state
    let blue := speaker_blue state
    let blink := speaker_blink state
    let io := speaker_reset env io
    if blink then
      (0, speaker_blink_branch env red green blue onMS offMS io)
    else
      (0, speaker_steady_branch env red green blue io)

/-- Source `handle_speaker_light_locked` (lines 261-271); the return value of
`set_speaker_light_locked` is discarded. -/
def handle_speaker_light_locked (env : Env) (dev : Option light_device_t)
    (g : Globals) (io : IOState) : IOState :=
  if is_lit g.g_attention ≠ 0 then
    (set_speaker_light_locked env dev g.g_attention io).2
  else if is_lit g.g_notification ≠ 0 then
    (set_speaker_light_locked env dev g.g_notification io).2
  else
    (set_speaker_light_locked env dev g.g_battery io).2

/-- Source `set_light_battery` (lines 273-282). -/
def set_light_battery (env : Env) (dev : Option light_device_t) (state : light_state_t)
    (g : Globals) (io : IOState) : Int × Globals × IOState :=
  let g1 : Globals := { g with g_battery := state }
  (0, g1, handle_speaker_light_locked env dev g1 io)

/-- Source `set_light_notifications` (lines 284-293). -/
def set_light_notifications (env : Env) (dev : Option light_device_t) (state : light_state_t)
    (g : Globals) (io : IOState) : Int × Globals × IOState :=
  let g1 : Globals := { g with g_notification := state }
  (0, g1, handle_speaker_light_locked env dev g1 io)

/-- Source `set_light_attention` (lines 295-304). -/
def set_light_attention (env : Env) (dev : Option light_device_t) (state : light_state_t)
    (g : Globals) (io : IOState) : Int × Globals × IOState :=
  let g1 : Globals := { g with g_attention := state }
  (0, g1, handle_speaker_light_locked env dev g1 io)

/-! ## Specification-side vocabulary

These definitions follow the words of the specification; the theorems below
compare them with the functions translated from the source. -/

/-- Bits 16-23 of a colour (the red byte of the spec). -/
def redByte (color : Nat) : Nat := color / 2 ^ 16 % 256

/-- Bits 8-15 of a colour (the green byte of the spec). -/
def greenByte (color : Nat) : Nat := color / 2 ^ 8 % 256

/-- Bits 0-7 of a colour (the blue byte of the spec). -/
def blueByte (color : Nat) : Nat := color % 256

/-- The spec predicate `lit`: the low 24 bits of the colour are nonzero. -/
def Lit (state : light_state_t) : Prop := state.color % 2 ^ 24 ≠ 0

instance (state : light_state_t) : Decidable (Lit state) := by
  unfold Lit; infer_instance

/-- The spec predicate `blinking`: mode Timed and both durations positive. -/
def Blinking (state : light_state_t) : Prop :=
  state.flashMode = LIGHT_FLASH_TIMED ∧ 0 < state.flashOnMS ∧ 0 < state.flashOffMS

instance (state : light_state_t) : Decidable (Blinking state) := by
  unfold Blinking; infer_instance

/-- The six reset writes of the spec: brightness 0 and trigger "none" for red,
green and blue. -/
def resetWrites : List Write :=
  [Write.int RED_LED_FILE 0, Write.str RED_TRIGGER_FILE "none",
   Write.int GREEN_LED_FILE 0, Write.str GREEN_TRIGGER_FILE "none",
   Write.int BLUE_LED_FILE 0, Write.str BLUE_TRIGGER_FILE "none"]

/-- One blink group of the spec: trigger "timer", then delay_on, then
delay_off. -/
def timerGroup (trigger delayOn delayOff : Endpoint) (onMS offMS : Int) : List Write :=
  [Write.str trigger "timer", Write.int delayOn onMS, Write.int delayOff offMS]

/-- The writes the spec prescribes after the reset for a blinking state: one
group per blinking channel in the order red, green, blue; green blinks only
when neither red nor blue is requested. -/
def specBlinkWrites (state : light_state_t) : List Write :=
  (if 128 ≤ redByte state.color then
      timerGroup RED_TRIGGER_FILE RED_DELAY_ON_FILE RED_DELAY_OFF_FILE
        state.flashOnMS state.flashOffMS
    else [])
  ++ (if 128 ≤ greenByte state.color ∧ redByte state.color < 128
        ∧ blueByte state.color < 128 then
      timerGroup GREEN_TRIGGER_FILE GREEN_DELAY_ON_FILE GREEN_DELAY_OFF_FILE
        state.flashOnMS state.flashOffMS
    else [])
  ++ (if 128 ≤ blueByte state.color then
      timerGroup BLUE_TRIGGER_FILE BLUE_DELAY_ON_FILE BLUE_DELAY_OFF_FILE
        state.flashOnMS state.flashOffMS
    else [])

/-- The writes the spec prescribes after the reset for a steady state: one
brightness 255 per requested channel, in the order red, green, blue. -/
def specSteadyWrites (state : light_state_t) : List Write :=
  (if 128 ≤ redByte state.color then [Write.int RED_LED_FILE 255] else [])
  ++ (if 128 ≤ greenByte state.color then [Write.int GREEN_LED_FILE 255] else [])
  ++ (if 128 ≤ blueByte state.color then [Write.int BLUE_LED_FILE 255] else [])

/-- The control file a write call names. -/
def Write.path : Write → Endpoint
  | Write.int p _ => p
  | Write.str p _ => p

/-- The three LED brightness files. -/
def brightnessFiles : List Endpoint := [RED_LED_FILE, GREEN_LED_FILE, BLUE_LED_FILE]

/-- The three LED trigger files. -/
def triggerFiles : List Endpoint := [RED_TRIGGER_FILE, GREEN_TRIGGER_FILE, BLUE_TRIGGER_FILE]

/-- The six LED delay_on and delay_off files. -/
def delayFiles : List Endpoint :=
  [RED_DELAY_ON_FILE, RED_DELAY_OFF_FILE, GREEN_DELAY_ON_FILE, GREEN_DELAY_OFF_FILE,
   BLUE_DELAY_ON_FILE, BLUE_DELAY_OFF_FILE]

/-- A write that applies a new state, in the words of the spec: a value 255,
the string "timer", or any write to a delay_on or delay_off file. -/
def Write.isApply : Write → Bool
  | Write.int p v => decide (v = 255) || decide (p ∈ delayFiles)
  | Write.str p s => decide (s = "timer") || decide (p ∈ delayFiles)

/-! ## Sequences of calls, the endpoint map and the arbiter of the spec -/

/-- The outcome is a failure of `open`. -/
def Outcome.isOpenFailed : Outcome → Bool
  | Outcome.open_failed _ => true
  | _ => false

/-- The return code `write_int` and `write_str` give for an outcome:
0 on success, `-errno` on a failure. -/
def Outcome.code : Outcome → Int
  | Outcome.ok => 0
  | Outcome.open_failed errno => -(errno : Int)
  | Outcome.write_failed errno => -(errno : Int)

/-- The call is a call of `write_int` (otherwise of `write_str`). -/
def Write.isInt : Write → Bool
  | Write.int _ _ => true
  | Write.str _ _ => false

/-- Perform one call: `write_int` or `write_str`, the return code dropped. -/
def do_call (env : Env) (io : IOState) (w : Write) : IOState :=
  match w with
  | Write.int p v => (write_int env p v io).2
  | Write.str p s => (write_str env p s io).2

/-- Perform a sequence of calls in order. -/
def run_calls (env : Env) (calls : List Write) (io : IOState) : IOState :=
  calls.foldl (do_call env) io

/-- The message `write_int` and `write_str` log when `open` fails. -/
def openWarning (path : Endpoint) : String :=
  "write_int failed to open " ++ path.path ++ "\n"

/-- The environment in which `open` fails with `ENOENT` (2) on every call. -/
def Env.allOpenFail : Env := fun _ _ => Outcome.open_failed 2

/-- The static `already_warned` of `write_int` (for `true`) or of `write_str`
(for `false`). -/
def IOState.already_warned (io : IOState) (isInt : Bool) : Int :=
  if isInt then io.write_int_already_warned else io.write_str_already_warned

/-- None of the calls `calls` made through the given function (`write_int` for
`true`, `write_str` for `false`) failed to open its file. -/
def noEarlierOpenFailure (env : Env) (calls : List Write) (isInt : Bool) : Prop :=
  ∀ (k : Nat) (w : Write), calls[k]? = some w → w.isInt = isInt →
    (env k w).isOpenFailed = false

/-- The calls made between two input/output states. -/
def issued (before after : IOState) : List Write :=
  after.trace.drop before.trace.length

/-- The value a call writes. -/
inductive Value where
  | int (value : Int)
  | str (str : String)
deriving DecidableEq

/-- The value a write call carries. -/
def Write.value : Write → Value
  | Write.int _ v => Value.int v
  | Write.str _ s => Value.str s

/-- The endpoints as a map from endpoint to the last value written, `none`
where nothing was written yet. -/
abbrev EndpointMap := Endpoint → Option Value

/-- One successful write on the endpoint map. -/
def EndpointMap.write (m : EndpointMap) (w : Write) : EndpointMap :=
  fun e => if e = w.path then some w.value else m e

/-- A sequence of successful writes on the endpoint map. -/
def EndpointMap.apply (m : EndpointMap) (ws : List Write) : EndpointMap :=
  ws.foldl EndpointMap.write m

/-- A setter seen on the stored triple and the endpoint map: the setter runs
on the globals and the input/output state, and the calls it issued are applied
to the map. -/
def on_map (f : Globals → IOState → Int × Globals × IOState)
    (x : Globals × EndpointMap × IOState) : Globals × EndpointMap × IOState :=
  ((f x.1 x.2.2).2.1, x.2.1.apply (issued x.2.2 (f x.1 x.2.2).2.2), (f x.1 x.2.2).2.2)

/-- The arbitration winner of the spec (section 4.3): attention if lit, else
notification if lit, else battery. -/
def winner (g : Globals) : light_state_t :=
  if Lit g.g_attention then g.g_attention
  else if Lit g.g_notification then g.g_notification
  else g.g_battery

/-- The grey colour `a<<24 | v<<16 | v<<8 | v`. -/
def greyColor (a v : Nat) : Nat := a <<< 24 ||| v <<< 16 ||| v <<< 8 ||| v

/-! ## Auxiliary lemmas -/

theorem write_int_trace (env : Env) (p : Endpoint) (v : Int) (io : IOState) :
    (write_int env p v io).2.trace = io.trace ++ [Write.int p v] := by
  unfold write_int
  split
  · rfl
  · rfl
  · split <;> rfl

theorem write_str_trace (env : Env) (p : Endpoint) (v : String) (io : IOState) :
    (write_str env p v io).2.trace = io.trace ++ [Write.str p v] := by
  unfold write_str
  split
  · rfl
  · rfl
  · split <;> rfl

theorem speaker_reset_trace (env : Env) (io : IOState) :
    (speaker_reset env io).trace = io.trace ++ resetWrites := by
  simp [speaker_reset, resetWrites, write_int_trace, write_str_trace]

theorem speaker_red_eq (state : light_state_t) : speaker_red state = redByte state.color := by
  unfold speaker_red redByte
  rw [Nat.shiftRight_eq_div_pow]
  exact Nat.and_pow_two_sub_one_eq_mod _ 8

theorem speaker_green_eq (state : light_state_t) :
    speaker_green state = greenByte state.color := by
  unfold speaker_green greenByte
  rw [Nat.shiftRight_eq_div_pow]
  exact Nat.and_pow_two_sub_one_eq_mod _ 8

theorem speaker_blue_eq (state : light_state_t) : speaker_blue state = blueByte state.color := by
  unfold speaker_blue blueByte
  exact Nat.and_pow_two_sub_one_eq_mod _ 8

theorem speaker_blink_iff (state : light_state_t) :
    speaker_blink state = true ↔ Blinking state := by
  unfold speaker_blink flash_durations Blinking
  by_cases h : state.flashMode = LIGHT_FLASH_TIMED <;> simp [h]

theorem speaker_blink_branch_trace (env : Env) (red green blue : Nat) (onMS offMS : Int)
    (io : IOState) :
    (speaker_blink_branch env red green blue onMS offMS io).trace
      = io.trace
        ++ (if 128 ≤ red then
              timerGroup RED_TRIGGER_FILE RED_DELAY_ON_FILE RED_DELAY_OFF_FILE onMS offMS
            else [])
        ++ (if 128 ≤ green ∧ red < 128 ∧ blue < 128 then
              timerGroup GREEN_TRIGGER_FILE GREEN_DELAY_ON_FILE GREEN_DELAY_OFF_FILE onMS offMS
            else [])
        ++ (if 128 ≤ blue then
              timerGroup BLUE_TRIGGER_FILE BLUE_DELAY_ON_FILE BLUE_DELAY_OFF_FILE onMS offMS
            else []) := by
  unfold speaker_blink_branch timerGroup
  by_cases hr : 128 ≤ red <;> by_cases hg : 128 ≤ green ∧ red < 128 ∧ blue < 128 <;>
    by_cases hb : 128 ≤ blue <;>
    simp [hr, hg, hb, write_int_trace, write_str_trace]

theorem speaker_steady_branch_trace (env : Env) (red green blue : Nat) (io : IOState) :
    (speaker_steady_branch env red green blue io).trace
      = io.trace
        ++ (if 128 ≤ red then [Write.int RED_LED_FILE 255] else [])
        ++ (if 128 ≤ green then [Write.int GREEN_LED_FILE 255] else [])
        ++ (if 128 ≤ blue then [Write.int BLUE_LED_FILE 255] else []) := by
  unfold speaker_steady_branch
  by_cases hr : 128 ≤ red <;> by_cases hg : 128 ≤ green <;> by_cases hb : 128 ≤ blue <;>
    simp [hr, hg, hb, write_int_trace]

theorem is_lit_ne_zero_iff (state : light_state_t) : is_lit state ≠ 0 ↔ Lit state := by
  unfold is_lit Lit
  have h : state.color &&& 0x00ffffff = state.color % 2 ^ 24 :=
    Nat.and_pow_two_sub_one_eq_mod _ 24
  rw [h]
  exact Int.natCast_ne_zero

theorem set_speaker_light_locked_trace (env : Env) (d : light_device_t)
    (state : light_state_t) (io : IOState) :
    (set_speaker_light_locked env (some d) state io).2.trace
      = io.trace ++ resetWrites
        ++ (if Blinking state then specBlinkWrites state else specSteadyWrites state) := by
  unfold set_speaker_light_locked
  by_cases hb : Blinking state
  · have hb1 : speaker_blink state = true := (speaker_blink_iff state).2 hb
    have hd : flash_durations state = (state.flashOnMS, state.flashOffMS) := by
      unfold flash_durations; rw [if_pos hb.1]
    simp only [hb1, if_true, if_pos hb, speaker_blink_branch_trace, speaker_reset_trace,
      speaker_red_eq, speaker_green_eq, speaker_blue_eq, hd, specBlinkWrites, List.append_assoc]
  · have hb1 : speaker_blink state = false := by
      rw [← Bool.not_eq_true]; exact fun h => hb ((speaker_blink_iff state).1 h)
    simp only [hb1, if_neg hb, Bool.false_eq_true, if_false, speaker_steady_branch_trace,
      speaker_reset_trace, speaker_red_eq, speaker_green_eq, speaker_blue_eq, specSteadyWrites,
      List.append_assoc]

theorem set_speaker_light_locked_null (env : Env) (state : light_state_t) (io : IOState) :
    set_speaker_light_locked env none state io = (-1, io) := rfl

theorem specBlinkWrites_of_not_lit (state : light_state_t) (h : ¬ Lit state) :
    specBlinkWrites state = [] := by
  have h0 : state.color % 16777216 = 0 := by
    have := h; unfold Lit at this; norm_num at this; exact this
  have hr : ¬ 128 ≤ redByte state.color := by unfold redByte; norm_num; omega
  have hg : ¬ 128 ≤ greenByte state.color := by unfold greenByte; norm_num; omega
  have hb : ¬ 128 ≤ blueByte state.color := by unfold blueByte; omega
  simp [specBlinkWrites, hr, hg, hb]

theorem specSteadyWrites_of_not_lit (state : light_state_t) (h : ¬ Lit state) :
    specSteadyWrites state = [] := by
  have h0 : state.color % 16777216 = 0 := by
    have := h; unfold Lit at this; norm_num at this; exact this
  have hr : ¬ 128 ≤ redByte state.color := by unfold redByte; norm_num; omega
  have hg : ¬ 128 ≤ greenByte state.color := by unfold greenByte; norm_num; omega
  have hb : ¬ 128 ≤ blueByte state.color := by unfold blueByte; omega
  simp [specSteadyWrites, hr, hg, hb]

theorem rgb_to_brightness_eq (state : light_state_t) :
    rgb_to_brightness state
      = (((77 * redByte state.color + 150 * greenByte state.color
            + 29 * blueByte state.color) / 2 ^ 8 : Nat) : Int) := by
  have h24 : state.color &&& 0x00ffffff = state.color % 2 ^ 24 :=
    Nat.and_pow_two_sub_one_eq_mod _ 24
  have h8 : ∀ x : Nat, x &&& 0x00ff = x % 2 ^ 8 := fun x =>
    Nat.and_pow_two_sub_one_eq_mod x 8
  unfold rgb_to_brightness redByte greenByte blueByte
  simp only [h24, h8, Nat.shiftRight_eq_div_pow]
  have hr : state.color % 2 ^ 24 / 2 ^ 16 % 2 ^ 8 = state.color / 2 ^ 16 % 256 := by
    norm_num; omega
  have hg : state.color % 2 ^ 24 / 2 ^ 8 % 2 ^ 8 = state.color / 2 ^ 8 % 256 := by
    norm_num; omega
  have hb : state.color % 2 ^ 24 % 2 ^ 8 = state.color % 256 := by
    norm_num
  rw [hr, hg, hb]

theorem rgb_to_brightness_no_overflow (state : light_state_t) :
    77 * redByte state.color + 150 * greenByte state.color + 29 * blueByte state.color
      < 2 ^ 31 := by
  have hr : redByte state.color < 256 := Nat.mod_lt _ (by norm_num)
  have hg : greenByte state.color < 256 := Nat.mod_lt _ (by norm_num)
  have hb : blueByte state.color < 256 := Nat.mod_lt _ (by norm_num)
  norm_num
  omega

theorem set_light_battery_null (env : Env) (state : light_state_t) (g : Globals)
    (io : IOState) :
    set_light_battery env none state g io = (0, { g with g_battery := state }, io) := by
  simp only [set_light_battery, handle_speaker_light_locked, set_speaker_light_locked_null,
    ite_self]

theorem set_light_notifications_null (env : Env) (state : light_state_t) (g : Globals)
    (io : IOState) :
    set_light_notifications env none state g io
      = (0, { g with g_notification := state }, io) := by
  simp only [set_light_notifications, handle_speaker_light_locked,
    set_speaker_light_locked_null, ite_self]

theorem set_light_attention_null (env : Env) (state : light_state_t) (g : Globals)
    (io : IOState) :
    set_light_attention env none state g io = (0, { g with g_attention := state }, io) := by
  simp only [set_light_attention, handle_speaker_light_locked, set_speaker_light_locked_null,
    ite_self]

theorem set_light_backlight_null (env : Env) (state : light_state_t) (g : Globals)
    (io : IOState) :
    set_light_backlight env none state g io = (-1, g, io) := rfl

theorem set_light_buttons_null (env : Env) (state : light_state_t) (g : Globals)
    (io : IOState) :
    set_light_buttons env none state g io = (-1, g, io) := rfl

/-! ## Priority arbitration (C1 - C3) -/

/-- C1: when the stored attention state is lit (nonzero low 24 colour bits),
then for every non-null handle `handle_speaker_light_locked` leaves exactly the
input/output state, hence exactly the write sequence, that
`set_speaker_light_locked` produces for the attention state; the result is
the same for any two choices of the notification and battery states. -/
theorem C1_attention_wins (env : Env) (d : light_device_t)
    (att notif batt notif2 batt2 : light_state_t) (io : IOState) (h : Lit att) :
    handle_speaker_light_locked env (some d)
        { g_attention := att, g_notification := notif, g_battery := batt } io
      = (set_speaker_light_locked env (some d) att io).2
    ∧ (handle_speaker_light_locked env (some d)
        { g_attention := att, g_notification := notif, g_battery := batt } io).trace
      = (set_speaker_light_locked env (some d) att io).2.trace
    ∧ handle_speaker_light_locked env (some d)
        { g_attention := att, g_notification := notif, g_battery := batt } io
      = handle_speaker_light_locked env (some d)
        { g_attention := att, g_notification := notif2, g_battery := batt2 } io := by
  have ha : is_lit att ≠ 0 := (is_lit_ne_zero_iff att).2 h
  simp only [handle_speaker_light_locked, if_pos ha, and_self]

/-- Witness of C1: attention red and steady, notification green and blinking,
battery blue; the writes are the reset followed by red brightness 255. -/
theorem C1_attention_wins_witness :
    Lit { color := 0x00FF0000, flashMode := 0, flashOnMS := 0, flashOffMS := 0 }
    ∧ (handle_speaker_light_locked Env.allOk (some { version := 0 })
        { g_attention := { color := 0x00FF0000, flashMode := 0, flashOnMS := 0, flashOffMS := 0 }
          g_notification :=
            { color := 0x0000FF00, flashMode := 1, flashOnMS := 500, flashOffMS := 500 }
          g_battery := { color := 0x000000FF, flashMode := 0, flashOnMS := 0, flashOffMS := 0 } }
        IOState.init).trace
      = (set_speaker_light_locked Env.allOk (some { version := 0 })
          { color := 0x00FF0000, flashMode := 0, flashOnMS := 0, flashOffMS := 0 }
          IOState.init).2.trace :=
  ⟨by decide,
   (C1_attention_wins Env.allOk { version := 0 }
      { color := 0x00FF0000, flashMode := 0, flashOnMS := 0, flashOffMS := 0 }
      { color := 0x0000FF00, flashMode := 1, flashOnMS := 500, flashOffMS := 500 }
      { color := 0x000000FF, flashMode := 0, flashOnMS := 0, flashOffMS := 0 }
      light_state_t.zero light_state_t.zero IOState.init (by decide)).2.1⟩

/-- C2: when the stored attention state is unlit and the stored notification
state is lit, `handle_speaker_light_locked` leaves exactly the input/output
state, hence exactly the write sequence, of `set_speaker_light_locked` applied
to the notification state, for every handle and every battery state. -/
theorem C2_notification_second (env : Env) (dev : Option light_device_t)
    (att notif batt : light_state_t) (io : IOState) (ha : ¬ Lit att) (hn : Lit notif) :
    handle_speaker_light_locked env dev
        { g_attention := att, g_notification := notif, g_battery := batt } io
      = (set_speaker_light_locked env dev notif io).2
    ∧ (handle_speaker_light_locked env dev
        { g_attention := att, g_notification := notif, g_battery := batt } io).trace
      = (set_speaker_light_locked env dev notif io).2.trace := by
  have ha1 : ¬ is_lit att ≠ 0 := fun h => ha ((is_lit_ne_zero_iff att).1 h)
  have hn1 : is_lit notif ≠ 0 := (is_lit_ne_zero_iff notif).2 hn
  simp only [handle_speaker_light_locked, if_neg ha1, if_pos hn1, and_self]

/-- Witness of C2: attention black (with a nonzero top byte), notification
green and blinking, battery blue. -/
theorem C2_notification_second_witness :
    ¬ Lit { color := 0xFF000000, flashMode := 0, flashOnMS := 0, flashOffMS := 0 }
    ∧ Lit { color := 0x0000FF00, flashMode := 1, flashOnMS := 500, flashOffMS := 500 }
    ∧ (handle_speaker_light_locked Env.allOk (some { version := 0 })
        { g_attention := { color := 0xFF000000, flashMode := 0, flashOnMS := 0, flashOffMS := 0 }
          g_notification :=
            { color := 0x0000FF00, flashMode := 1, flashOnMS := 500, flashOffMS := 500 }
          g_battery := { color := 0x000000FF, flashMode := 0, flashOnMS := 0, flashOffMS := 0 } }
        IOState.init).trace
      = (set_speaker_light_locked Env.allOk (some { version := 0 })
          { color := 0x0000FF00, flashMode := 1, flashOnMS := 500, flashOffMS := 500 }
          IOState.init).2.trace :=
  ⟨by decide, by decide,
   (C2_notification_second Env.allOk (some { version := 0 })
      { color := 0xFF000000, flashMode := 0, flashOnMS := 0, flashOffMS := 0 }
      { color := 0x0000FF00, flashMode := 1, flashOnMS := 500, flashOffMS := 500 }
      { color := 0x000000FF, flashMode := 0, flashOnMS := 0, flashOffMS := 0 }
      IOState.init (by decide) (by decide)).2⟩

/-- C3, as stated, fails for the null handle: with all three stored states
unlit and `dev = NULL`, `set_speaker_light_locked` returns at its guard
(line 194) and the write sequence is empty, not the six reset writes. -/
theorem C3_null_handle_counterexample :
    ¬ Lit Globals.init.g_attention ∧ ¬ Lit Globals.init.g_notification
    ∧ ¬ Lit Globals.init.g_battery
    ∧ (handle_speaker_light_locked Env.allOk none Globals.init IOState.init).trace
        = IOState.init.trace
    ∧ (handle_speaker_light_locked Env.allOk none Globals.init IOState.init).trace
        ≠ IOState.init.trace ++ resetWrites := by
  refine ⟨by decide, by decide, by decide, ?_, ?_⟩
  · simp [handle_speaker_light_locked, set_speaker_light_locked]
  · simp [handle_speaker_light_locked, set_speaker_light_locked, IOState.init, resetWrites]

/-- C3 (amended): when the stored attention and notification states are both
unlit, `handle_speaker_light_locked` leaves exactly the input/output state,
hence the write sequence, of `set_speaker_light_locked` applied to the battery
state, for every handle; and when the battery state is also unlit and the
handle is not null, the writes issued are exactly the six reset writes,
whatever the flash mode and durations of the battery state. -/
theorem C3_battery_last (env : Env) (dev : Option light_device_t) (d : light_device_t)
    (att notif batt : light_state_t) (io : IOState)
    (ha : ¬ Lit att) (hn : ¬ Lit notif) :
    handle_speaker_light_locked env dev
        { g_attention := att, g_notification := notif, g_battery := batt } io
      = (set_speaker_light_locked env dev batt io).2
    ∧ (¬ Lit batt →
        (handle_speaker_light_locked env (some d)
          { g_attention := att, g_notification := notif, g_battery := batt } io).trace
        = io.trace ++ resetWrites) := by
  have ha1 : ¬ is_lit att ≠ 0 := fun h => ha ((is_lit_ne_zero_iff att).1 h)
  have hn1 : ¬ is_lit notif ≠ 0 := fun h => hn ((is_lit_ne_zero_iff notif).1 h)
  refine ⟨by simp only [handle_speaker_light_locked, if_neg ha1, if_neg hn1], ?_⟩
  intro hb
  simp only [handle_speaker_light_locked, if_neg ha1, if_neg hn1,
    set_speaker_light_locked_trace, specBlinkWrites_of_not_lit batt hb,
    specSteadyWrites_of_not_lit batt hb, ite_self, List.append_nil]

/-- Witness of C3 (amended): everything unlit, the battery state even Timed
with positive durations; a non-null handle gets exactly the six reset writes. -/
theorem C3_battery_last_witness :
    ¬ Lit { color := 0, flashMode := 0, flashOnMS := 0, flashOffMS := 0 }
    ∧ ¬ Lit { color := 0xFF000000, flashMode := 0, flashOnMS := 0, flashOffMS := 0 }
    ∧ ¬ Lit { color := 0, flashMode := 1, flashOnMS := 300, flashOffMS := 700 }
    ∧ (handle_speaker_light_locked Env.allOk (some { version := 0 })
          { g_attention := { color := 0, flashMode := 0, flashOnMS := 0, flashOffMS := 0 }
            g_notification :=
              { color := 0xFF000000, flashMode := 0, flashOnMS := 0, flashOffMS := 0 }
            g_battery := { color := 0, flashMode := 1, flashOnMS := 300, flashOffMS := 700 } }
          IOState.init).trace
        = IOState.init.trace ++ resetWrites :=
  ⟨by decide, by decide, by decide,
   (C3_battery_last Env.allOk none { version := 0 }
      { color := 0, flashMode := 0, flashOnMS := 0, flashOffMS := 0 }
      { color := 0xFF000000, flashMode := 0, flashOnMS := 0, flashOffMS := 0 }
      { color := 0, flashMode := 1, flashOnMS := 300, flashOffMS := 700 }
      IOState.init (by decide) (by decide)).2 (by decide)⟩

/-! ## The speaker-light driver (C4 - C7) -/

/-- C4: for every blinking state (mode Timed, both durations positive) and
every non-null handle, the writes of `set_speaker_light_locked` are the six
reset writes followed by exactly the groups the spec prescribes: in the order
red, green, blue, one group (trigger "timer", delay_on = flashOnMS,
delay_off = flashOffMS) for red iff its byte is at least 128, for blue iff its
byte is at least 128, and for green iff its byte is at least 128 while the red
and blue bytes are below 128; no brightness file is written after the reset,
and nowhere is a brightness 255 written. -/
theorem C4_blink_writes (env : Env) (d : light_device_t) (state : light_state_t)
    (io : IOState) (h : Blinking state) :
    (set_speaker_light_locked env (some d) state io).2.trace
        = io.trace ++ resetWrites ++ specBlinkWrites state
    ∧ (∀ w ∈ specBlinkWrites state, w.path ∉ brightnessFiles)
    ∧ (∀ p ∈ brightnessFiles, Write.int p 255 ∉ resetWrites ++ specBlinkWrites state) := by
  have hpath : ∀ w ∈ specBlinkWrites state, w.path ∉ brightnessFiles := by
    intro w hw
    simp only [specBlinkWrites, List.mem_append] at hw
    rcases hw with (hw | hw) | hw <;> split at hw <;>
      simp only [timerGroup, List.mem_cons, List.mem_singleton, List.not_mem_nil,
        or_false] at hw <;>
      rcases hw with hw | hw | hw <;> subst hw <;>
      simp [Write.path, brightnessFiles]
  refine ⟨?_, hpath, ?_⟩
  · rw [set_speaker_light_locked_trace, if_pos h]
  · intro p hp hmem
    rcases List.mem_append.1 hmem with hr | hb
    · simp [resetWrites] at hr
    · exact hpath _ hb hp

/-- Witness of C4: colour R=255, G=255, B=0, Timed 500/500: after the reset
only the red group is written; green does not blink. -/
theorem C4_blink_writes_witness :
    Blinking { color := 0x00FFFF00, flashMode := 1, flashOnMS := 500, flashOffMS := 500 }
    ∧ (set_speaker_light_locked Env.allOk (some { version := 0 })
        { color := 0x00FFFF00, flashMode := 1, flashOnMS := 500, flashOffMS := 500 }
        IOState.init).2.trace
      = resetWrites ++ [Write.str RED_TRIGGER_FILE "timer", Write.int RED_DELAY_ON_FILE 500,
          Write.int RED_DELAY_OFF_FILE 500] :=
  ⟨by decide,
   (C4_blink_writes Env.allOk { version := 0 }
      { color := 0x00FFFF00, flashMode := 1, flashOnMS := 500, flashOffMS := 500 }
      IOState.init (by decide)).1.trans (by decide)⟩

/-- C5: for every state that is not blinking and every non-null handle, the
writes of `set_speaker_light_locked` are the six reset writes followed by
exactly one brightness 255 for each of red, green, blue whose colour byte is at
least 128, each decided on its own byte, in the order red, green, blue; none of
the writes after the reset names a trigger, delay_on or delay_off file. -/
theorem C5_steady_writes (env : Env) (d : light_device_t) (state : light_state_t)
    (io : IOState) (h : ¬ Blinking state) :
    (set_speaker_light_locked env (some d) state io).2.trace
        = io.trace ++ resetWrites ++ specSteadyWrites state
    ∧ (∀ w ∈ specSteadyWrites state, w.path ∉ triggerFiles ∧ w.path ∉ delayFiles) := by
  refine ⟨?_, ?_⟩
  · rw [set_speaker_light_locked_trace, if_neg h]
  · intro w hw
    simp only [specSteadyWrites, List.mem_append] at hw
    rcases hw with (hw | hw) | hw <;> split at hw <;>
      simp only [List.mem_singleton, List.not_mem_nil] at hw <;>
      subst hw <;> decide

/-- Witness of C5: colour 0x000000FF with flash mode None: after the reset the
single write is blue brightness 255. -/
theorem C5_steady_writes_witness :
    ¬ Blinking { color := 0x000000FF, flashMode := 0, flashOnMS := 0, flashOffMS := 0 }
    ∧ (set_speaker_light_locked Env.allOk (some { version := 0 })
        { color := 0x000000FF, flashMode := 0, flashOnMS := 0, flashOffMS := 0 }
        IOState.init).2.trace
      = resetWrites ++ [Write.int BLUE_LED_FILE 255] :=
  ⟨by decide,
   (C5_steady_writes Env.allOk { version := 0 }
      { color := 0x000000FF, flashMode := 0, flashOnMS := 0, flashOffMS := 0 }
      IOState.init (by decide)).1.trans (by decide)⟩

/-- C6: for every state, every non-null handle, every environment and every
prior input/output state, the writes of `set_speaker_light_locked` begin with
the six reset writes (red brightness 0, red trigger "none", green brightness 0,
green trigger "none", blue brightness 0, blue trigger "none"); every write that
applies the new state (a 255, a "timer" or a delay write) stands at position 6
or later, after all six, and every write after the six is such a write. -/
theorem C6_reset_then_apply (env : Env) (d : light_device_t) (state : light_state_t)
    (io : IOState) :
    ∃ rest : List Write,
      (set_speaker_light_locked env (some d) state io).2.trace
          = io.trace ++ resetWrites ++ rest
      ∧ resetWrites
          = [Write.int RED_LED_FILE 0, Write.str RED_TRIGGER_FILE "none",
             Write.int GREEN_LED_FILE 0, Write.str GREEN_TRIGGER_FILE "none",
             Write.int BLUE_LED_FILE 0, Write.str BLUE_TRIGGER_FILE "none"]
      ∧ (∀ (i : Nat) (w : Write),
          (resetWrites ++ rest)[i]? = some w → w.isApply = true → 6 ≤ i)
      ∧ (∀ w ∈ rest, w.isApply = true) := by
  refine ⟨if Blinking state then specBlinkWrites state else specSteadyWrites state,
    set_speaker_light_locked_trace env d state io, rfl, ?_, ?_⟩
  · intro i w hw ha
    by_contra hlt
    have hi : i < resetWrites.length := by simp [resetWrites]; omega
    rw [List.getElem?_append_left hi] at hw
    have hi6 : i < 6 := by omega
    interval_cases i <;> simp [resetWrites] at hw <;> subst hw <;>
      simp [Write.isApply, delayFiles] at ha
  · intro w hw
    split at hw
    · simp only [specBlinkWrites, List.mem_append] at hw
      rcases hw with (hw | hw) | hw <;> split at hw <;>
        simp only [timerGroup, List.mem_cons, List.mem_singleton, List.not_mem_nil,
          or_false] at hw <;>
        rcases hw with hw | hw | hw <;> subst hw <;>
        simp [Write.isApply, delayFiles]
    · simp only [specSteadyWrites, List.mem_append] at hw
      rcases hw with (hw | hw) | hw <;> split at hw <;>
        simp only [List.mem_singleton, List.not_mem_nil] at hw <;>
        subst hw <;> simp [Write.isApply]

/-- C7: the branch condition `blink` of `set_speaker_light_locked` is true
exactly when the flash mode is Timed and both durations are positive; past the
null-handle guard the function runs the reset and then the blinking block
under that condition and the steady block in every other case (mode None or
any other mode value, or a duration that is zero or negative). -/
theorem C7_blink_decision (env : Env) (d : light_device_t) (state : light_state_t)
    (io : IOState) :
    (speaker_blink state = true
      ↔ (state.flashMode = LIGHT_FLASH_TIMED ∧ 0 < state.flashOnMS ∧ 0 < state.flashOffMS))
    ∧ set_speaker_light_locked env (some d) state io
      = if state.flashMode = LIGHT_FLASH_TIMED ∧ 0 < state.flashOnMS ∧ 0 < state.flashOffMS then
          (0, speaker_blink_branch env (speaker_red state) (speaker_green state)
                (speaker_blue state) state.flashOnMS state.flashOffMS (speaker_reset env io))
        else
          (0, speaker_steady_branch env (speaker_red state) (speaker_green state)
                (speaker_blue state) (speaker_reset env io)) := by
  refine ⟨speaker_blink_iff state, ?_⟩
  unfold set_speaker_light_locked
  by_cases hb : Blinking state
  · have hb1 : speaker_blink state = true := (speaker_blink_iff state).2 hb
    have hd : flash_durations state = (state.flashOnMS, state.flashOffMS) := by
      unfold flash_durations; rw [if_pos hb.1]
    have hb2 : state.flashMode = LIGHT_FLASH_TIMED ∧ 0 < state.flashOnMS
        ∧ 0 < state.flashOffMS := hb
    simp only [hb1, if_true, if_pos hb2, hd]
  · have hb1 : speaker_blink state = false := by
      rw [← Bool.not_eq_true]; exact fun h => hb ((speaker_blink_iff state).1 h)
    have hb2 : ¬ (state.flashMode = LIGHT_FLASH_TIMED ∧ 0 < state.flashOnMS
        ∧ 0 < state.flashOffMS) := hb
    simp only [hb1, if_neg hb2, Bool.false_eq_true, if_false]

/-! ## The colour translator (C8, C9) -/

/-- C8: for every colour, `rgb_to_brightness` returns
`(77*R + 150*G + 29*B) >> 8` with R, G, B the bits 16-23, 8-15 and 0-7 of the
colour; the result lies in [0, 255]; and two colours with the same low 24 bits,
whatever stands in bits 24 and above, give the same result. -/
theorem C8_rgb_to_brightness (state : light_state_t) (a b low : Nat) (m on_ off : Int) :
    rgb_to_brightness state
        = (((77 * (state.color / 2 ^ 16 % 256) + 150 * (state.color / 2 ^ 8 % 256)
              + 29 * (state.color % 256)) / 2 ^ 8 : Nat) : Int)
    ∧ 0 ≤ rgb_to_brightness state
    ∧ rgb_to_brightness state ≤ 255
    ∧ rgb_to_brightness
          { color := a * 2 ^ 24 + low % 2 ^ 24, flashMode := m, flashOnMS := on_,
            flashOffMS := off }
        = rgb_to_brightness
          { color := b * 2 ^ 24 + low % 2 ^ 24, flashMode := m, flashOnMS := on_,
            flashOffMS := off } := by
  refine ⟨rgb_to_brightness_eq state, ?_, ?_, ?_⟩
  · rw [rgb_to_brightness_eq]; exact Int.natCast_nonneg _
  · rw [rgb_to_brightness_eq]
    have hr : redByte state.color < 256 := Nat.mod_lt _ (by norm_num)
    have hg : greenByte state.color < 256 := Nat.mod_lt _ (by norm_num)
    have hb : blueByte state.color < 256 := Nat.mod_lt _ (by norm_num)
    have : (77 * redByte state.color + 150 * greenByte state.color
        + 29 * blueByte state.color) / 2 ^ 8 ≤ 255 := by
      norm_num; omega
    exact_mod_cast this
  · rw [rgb_to_brightness_eq, rgb_to_brightness_eq]
    have hr : redByte (a * 2 ^ 24 + low % 2 ^ 24) = redByte (b * 2 ^ 24 + low % 2 ^ 24) := by
      unfold redByte; norm_num; omega
    have hg : greenByte (a * 2 ^ 24 + low % 2 ^ 24)
        = greenByte (b * 2 ^ 24 + low % 2 ^ 24) := by
      unfold greenByte; norm_num; omega
    have hb : blueByte (a * 2 ^ 24 + low % 2 ^ 24)
        = blueByte (b * 2 ^ 24 + low % 2 ^ 24) := by
      unfold blueByte; norm_num; omega
    simp only [hr, hg, hb]

/-- C9: for every colour, `is_lit` is nonzero exactly when the low 24 bits of
the colour are nonzero; `is_lit` of 0x00000000 is zero and of 0x00000001 is
nonzero; and two colours with the same low 24 bits, whatever stands in bits 24
and above, give the same truth value. -/
theorem C9_is_lit (state : light_state_t) (a b low : Nat) (m on_ off : Int) :
    (is_lit state ≠ 0 ↔ state.color % 2 ^ 24 ≠ 0)
    ∧ is_lit { color := 0x00000000, flashMode := m, flashOnMS := on_, flashOffMS := off } = 0
    ∧ is_lit { color := 0x00000001, flashMode := m, flashOnMS := on_, flashOffMS := off } ≠ 0
    ∧ (is_lit
          { color := a * 2 ^ 24 + low % 2 ^ 24, flashMode := m, flashOnMS := on_,
            flashOffMS := off } ≠ 0
        ↔ is_lit
          { color := b * 2 ^ 24 + low % 2 ^ 24, flashMode := m, flashOnMS := on_,
            flashOffMS := off } ≠ 0) := by
  refine ⟨is_lit_ne_zero_iff state, ?_, ?_, ?_⟩
  · simp [is_lit]
  · rw [is_lit_ne_zero_iff]; simp [Lit]
  · rw [is_lit_ne_zero_iff, is_lit_ne_zero_iff]
    unfold Lit
    have h : (a * 2 ^ 24 + low % 2 ^ 24) % 2 ^ 24 = (b * 2 ^ 24 + low % 2 ^ 24) % 2 ^ 24 := by
      norm_num; omega
    simp only [h]

/-! ## Null device handle (C10) -/

/-- C10: the code at the failing input.  Called with a null handle on the
initial globals with a red steady state, `set_light_battery`,
`set_light_notifications` and `set_light_attention` each return 0 and store
the state (the stored triple changes), issuing no write; `set_light_backlight`
and `set_light_buttons` return -1 and change nothing. -/
theorem C10_null_handle_evaluation :
    set_light_battery Env.allOk none
        { color := 0x00FF0000, flashMode := 0, flashOnMS := 0, flashOffMS := 0 }
        Globals.init IOState.init
      = (0, { Globals.init with
                g_battery :=
                  { color := 0x00FF0000, flashMode := 0, flashOnMS := 0, flashOffMS := 0 } },
          IOState.init)
    ∧ set_light_notifications Env.allOk none
        { color := 0x00FF0000, flashMode := 0, flashOnMS := 0, flashOffMS := 0 }
        Globals.init IOState.init
      = (0, { Globals.init with
                g_notification :=
                  { color := 0x00FF0000, flashMode := 0, flashOnMS := 0, flashOffMS := 0 } },
          IOState.init)
    ∧ set_light_attention Env.allOk none
        { color := 0x00FF0000, flashMode := 0, flashOnMS := 0, flashOffMS := 0 }
        Globals.init IOState.init
      = (0, { Globals.init with
                g_attention :=
                  { color := 0x00FF0000, flashMode := 0, flashOnMS := 0, flashOffMS := 0 } },
          IOState.init)
    ∧ (set_light_battery Env.allOk none
        { color := 0x00FF0000, flashMode := 0, flashOnMS := 0, flashOffMS := 0 }
        Globals.init IOState.init).2.1 ≠ Globals.init
    ∧ set_light_backlight Env.allOk none
        { color := 0x00FF0000, flashMode := 0, flashOnMS := 0, flashOffMS := 0 }
        Globals.init IOState.init
      = (-1, Globals.init, IOState.init)
    ∧ set_light_buttons Env.allOk none
        { color := 0x00FF0000, flashMode := 0, flashOnMS := 0, flashOffMS := 0 }
        Globals.init IOState.init
      = (-1, Globals.init, IOState.init) := by
  refine ⟨set_light_battery_null _ _ _ _, set_light_notifications_null _ _ _ _,
    set_light_attention_null _ _ _ _, ?_, rfl, rfl⟩
  rw [set_light_battery_null]
  decide

/-! ## Lemmas on return codes and on the calls issued -/

theorem write_int_code (env : Env) (p : Endpoint) (v : Int) (io : IOState) :
    (write_int env p v io).1 = (env io.trace.length (Write.int p v)).code := by
  unfold write_int
  split <;> rename_i h <;> rw [h]
  · rfl
  · rfl
  · split <;> rfl

theorem outcome_code_nonpos (o : Outcome) : o.code ≤ 0 := by
  cases o <;> simp [Outcome.code]

theorem issued_append (io io2 : IOState) (ws : List Write)
    (h : io2.trace = io.trace ++ ws) : issued io io2 = ws := by
  unfold issued
  rw [h, List.drop_left]

theorem handle_speaker_light_locked_trace (env : Env) (dev : Option light_device_t)
    (g : Globals) (io : IOState) :
    (handle_speaker_light_locked env dev g io).trace
      = io.trace ++ (handle_speaker_light_locked Env.allOk dev g IOState.init).trace := by
  cases dev with
  | none =>
    simp [handle_speaker_light_locked, set_speaker_light_locked_null, IOState.init]
  | some d =>
    unfold handle_speaker_light_locked
    by_cases ha : is_lit g.g_attention ≠ 0
    · simp only [if_pos ha, set_speaker_light_locked_trace, IOState.init, List.nil_append,
        List.append_assoc]
    · by_cases hn : is_lit g.g_notification ≠ 0
      · simp only [if_neg ha, if_pos hn, set_speaker_light_locked_trace, IOState.init,
          List.nil_append, List.append_assoc]
      · simp only [if_neg ha, if_neg hn, set_speaker_light_locked_trace, IOState.init,
          List.nil_append, List.append_assoc]

/-! ## Error handling (C11, C12) -/

/-- C11: for every environment (every pattern of failing writes), every
handle and every state, `set_light_battery`, `set_light_notifications` and
`set_light_attention` return 0; `set_light_backlight` and `set_light_buttons`,
called with a non-null handle, return exactly the code of their single
`write_int` call, which is 0 on success and `-errno` on a failure, never
positive. -/
theorem C11_return_codes (env : Env) (dev : Option light_device_t) (d : light_device_t)
    (state : light_state_t) (g : Globals) (io : IOState) :
    (set_light_battery env dev state g io).1 = 0
    ∧ (set_light_notifications env dev state g io).1 = 0
    ∧ (set_light_attention env dev state g io).1 = 0
    ∧ (set_light_backlight env (some d) state g io).1
        = (write_int env LCD_FILE (rgb_to_brightness state) io).1
    ∧ (set_light_backlight env (some d) state g io).1
        = (env io.trace.length (Write.int LCD_FILE (rgb_to_brightness state))).code
    ∧ (set_light_buttons env (some d) state g io).1
        = (write_int env BUTTONS_FILE (if is_lit state ≠ 0 then 255 else 0) io).1
    ∧ (set_light_buttons env (some d) state g io).1
        = (env io.trace.length
            (Write.int BUTTONS_FILE (if is_lit state ≠ 0 then 255 else 0))).code
    ∧ (set_light_backlight env (some d) state g io).1 ≤ 0
    ∧ (set_light_buttons env (some d) state g io).1 ≤ 0 := by
  have hb : (set_light_backlight env (some d) state g io).1
      = (write_int env LCD_FILE (rgb_to_brightness state) io).1 := rfl
  have hu : (set_light_buttons env (some d) state g io).1
      = (write_int env BUTTONS_FILE (if is_lit state ≠ 0 then 255 else 0) io).1 := rfl
  refine ⟨rfl, rfl, rfl, hb, ?_, hu, ?_, ?_, ?_⟩
  · rw [hb, write_int_code]
  · rw [hu, write_int_code]
  · rw [hb, write_int_code]; exact outcome_code_nonpos _
  · rw [hu, write_int_code]; exact outcome_code_nonpos _

/-- C12: for every state and non-null handle, the calls that
`set_speaker_light_locked` issues are the same list, in the same order, for
any two environments (patterns of success and failure) and any two prior
input/output states: the reset followed by the writes that apply the state. -/
theorem C12_writes_independent_of_failures (env env2 : Env) (d : light_device_t)
    (state : light_state_t) (io io2 : IOState) :
    issued io (set_speaker_light_locked env (some d) state io).2
      = issued io2 (set_speaker_light_locked env2 (some d) state io2).2
    ∧ issued io (set_speaker_light_locked env (some d) state io).2
      = resetWrites
        ++ (if Blinking state then specBlinkWrites state else specSteadyWrites state) := by
  have h : ∀ (e : Env) (i : IOState),
      issued i (set_speaker_light_locked e (some d) state i).2
        = resetWrites
          ++ (if Blinking state then specBlinkWrites state else specSteadyWrites state) := by
    intro e i
    apply issued_append
    rw [set_speaker_light_locked_trace, List.append_assoc]
  exact ⟨(h env io).trans (h env2 io2).symm, h env io⟩

/-! ## Frame and direct setters (C14 - C16) -/

/-- C14: for every handle, environment and input state `s`, after
`set_light_battery` the stored battery state is `s` (all four fields) and the
stored attention and notification states are unchanged; likewise
`set_light_notifications` replaces only the notification state and
`set_light_attention` only the attention state. -/
theorem C14_store_and_frame (env : Env) (dev : Option light_device_t)
    (s : light_state_t) (g : Globals) (io : IOState) :
    (set_light_battery env dev s g io).2.1
        = { g_attention := g.g_attention, g_notification := g.g_notification, g_battery := s }
    ∧ (set_light_notifications env dev s g io).2.1
        = { g_attention := g.g_attention, g_notification := s, g_battery := g.g_battery }
    ∧ (set_light_attention env dev s g io).2.1
        = { g_attention := s, g_notification := g.g_notification, g_battery := g.g_battery }
    ∧ ((set_light_battery env dev s g io).2.1.g_battery.color = s.color
        ∧ (set_light_battery env dev s g io).2.1.g_battery.flashMode = s.flashMode
        ∧ (set_light_battery env dev s g io).2.1.g_battery.flashOnMS = s.flashOnMS
        ∧ (set_light_battery env dev s g io).2.1.g_battery.flashOffMS = s.flashOffMS) :=
  ⟨rfl, rfl, rfl, rfl, rfl, rfl, rfl⟩

/-- C15: for every state and non-null handle, `set_light_backlight` issues
exactly one call, `write_int` of `rgb_to_brightness (state)` to the backlight
brightness file, hence none to an LED or buttons file, and leaves the stored
attention, notification and battery states unchanged. -/
theorem C15_backlight_single_write (env : Env) (d : light_device_t)
    (state : light_state_t) (g : Globals) (io : IOState) :
    (set_light_backlight env (some d) state g io).2.2.trace
        = io.trace ++ [Write.int LCD_FILE (rgb_to_brightness state)]
    ∧ issued io (set_light_backlight env (some d) state g io).2.2
        = [Write.int LCD_FILE (rgb_to_brightness state)]
    ∧ (set_light_backlight env (some d) state g io).2.1 = g := by
  have h : (set_light_backlight env (some d) state g io).2.2.trace
      = io.trace ++ [Write.int LCD_FILE (rgb_to_brightness state)] := by
    simp only [set_light_backlight, write_int_trace]
  exact ⟨h, issued_append _ _ _ h, rfl⟩

/-- C16: for every state and non-null handle, `set_light_buttons` issues
exactly one call, `write_int` to the buttons brightness file, of 255 when the
low 24 bits of the colour are nonzero and of 0 otherwise, hence none to an LED
or backlight file, and leaves the stored attention, notification and battery
states unchanged. -/
theorem C16_buttons_single_write (env : Env) (d : light_device_t)
    (state : light_state_t) (g : Globals) (io : IOState) :
    (set_light_buttons env (some d) state g io).2.2.trace
        = io.trace ++ [Write.int BUTTONS_FILE (if state.color % 2 ^ 24 ≠ 0 then 255 else 0)]
    ∧ issued io (set_light_buttons env (some d) state g io).2.2
        = [Write.int BUTTONS_FILE (if state.color % 2 ^ 24 ≠ 0 then 255 else 0)]
    ∧ (set_light_buttons env (some d) state g io).2.1 = g := by
  have hv : (if is_lit state ≠ 0 then (255 : Int) else 0)
      = if state.color % 2 ^ 24 ≠ 0 then 255 else 0 := by
    by_cases hl : state.color % 2 ^ 24 ≠ 0
    · rw [if_pos ((is_lit_ne_zero_iff state).2 hl), if_pos hl]
    · rw [if_neg (fun h => hl ((is_lit_ne_zero_iff state).1 h)), if_neg hl]
  have h : (set_light_buttons env (some d) state g io).2.2.trace
      = io.trace ++ [Write.int BUTTONS_FILE (if state.color % 2 ^ 24 ≠ 0 then 255 else 0)] := by
    simp only [set_light_buttons, write_int_trace, hv]
  exact ⟨h, issued_append _ _ _ h, rfl⟩

/-! ## The warn-once flags (C13) -/

theorem do_call_trace (env : Env) (io : IOState) (w : Write) :
    (do_call env io w).trace = io.trace ++ [w] := by
  cases w with
  | int p v => exact write_int_trace env p v io
  | str p v => exact write_str_trace env p v io

theorem do_call_log (env : Env) (io : IOState) (w : Write) :
    (do_call env io w).log
      = if (env io.trace.length w).isOpenFailed = true ∧ io.already_warned w.isInt = 0 then
          io.log ++ [openWarning w.path]
        else io.log := by
  cases w with
  | int p v =>
    simp only [do_call, write_int, Write.isInt, IOState.already_warned, Write.path, if_true]
    cases env io.trace.length (Write.int p v) with
    | ok => simp [Outcome.isOpenFailed]
    | write_failed e => simp [Outcome.isOpenFailed]
    | open_failed e =>
      by_cases hz : io.write_int_already_warned = 0 <;>
        simp [Outcome.isOpenFailed, hz, openWarning]
  | str p v =>
    simp only [do_call, write_str, Write.isInt, IOState.already_warned, Write.path,
      Bool.false_eq_true, if_false]
    cases env io.trace.length (Write.str p v) with
    | ok => simp [Outcome.isOpenFailed]
    | write_failed e => simp [Outcome.isOpenFailed]
    | open_failed e =>
      by_cases hz : io.write_str_already_warned = 0 <;>
        simp [Outcome.isOpenFailed, hz, openWarning]

theorem do_call_already_warned (env : Env) (io : IOState) (w : Write) (b : Bool) :
    (do_call env io w).already_warned b = 0
      ↔ io.already_warned b = 0
        ∧ (w.isInt = b → (env io.trace.length w).isOpenFailed = false) := by
  cases w with
  | int p v =>
    simp only [do_call, write_int, Write.isInt, IOState.already_warned]
    cases env io.trace.length (Write.int p v) with
    | ok => cases b <;> simp [Outcome.isOpenFailed]
    | write_failed e => cases b <;> simp [Outcome.isOpenFailed]
    | open_failed e =>
      by_cases hz : io.write_int_already_warned = 0 <;>
        cases b <;> simp [Outcome.isOpenFailed, hz]
  | str p v =>
    simp only [do_call, write_str, Write.isInt, IOState.already_warned]
    cases env io.trace.length (Write.str p v) with
    | ok => cases b <;> simp [Outcome.isOpenFailed]
    | write_failed e => cases b <;> simp [Outcome.isOpenFailed]
    | open_failed e =>
      by_cases hz : io.write_str_already_warned = 0 <;>
        cases b <;> simp [Outcome.isOpenFailed, hz]

theorem run_calls_concat (env : Env) (cs : List Write) (w : Write) (io : IOState) :
    run_calls env (cs ++ [w]) io = do_call env (run_calls env cs io) w := by
  simp [run_calls, List.foldl_append]

theorem noEarlierOpenFailure_concat (env : Env) (cs : List Write) (w : Write) (b : Bool) :
    noEarlierOpenFailure env (cs ++ [w]) b
      ↔ noEarlierOpenFailure env cs b
        ∧ (w.isInt = b → (env cs.length w).isOpenFailed = false) := by
  unfold noEarlierOpenFailure
  constructor
  · intro h
    refine ⟨?_, ?_⟩
    · intro k w2 hk hb
      have hlt : k < cs.length := by
        by_contra hge
        rw [List.getElem?_eq_none (Nat.le_of_not_lt hge)] at hk
        exact Option.noConfusion hk
      exact h k w2 (by rw [List.getElem?_append_left hlt]; exact hk) hb
    · intro hb
      exact h cs.length w (List.getElem?_concat_length cs w) hb
  · rintro ⟨h1, h2⟩ k w2 hk hb
    by_cases hlt : k < cs.length
    · rw [List.getElem?_append_left hlt] at hk
      exact h1 k w2 hk hb
    · have hge : cs.length ≤ k := Nat.le_of_not_lt hlt
      rw [List.getElem?_append_right hge] at hk
      by_cases h0 : k - cs.length = 0
      · have hk2 : k = cs.length := by omega
        rw [h0] at hk
        simp only [List.getElem?_cons_zero, Option.some.injEq] at hk
        subst hk
        subst hk2
        exact h2 hb
      · obtain ⟨j, hj⟩ := Nat.exists_eq_succ_of_ne_zero h0
        rw [hj] at hk
        simp at hk

theorem run_calls_invariant (env : Env) (cs : List Write) :
    (run_calls env cs IOState.init).trace = cs
    ∧ ∀ b : Bool, ((run_calls env cs IOState.init).already_warned b = 0
        ↔ noEarlierOpenFailure env cs b) := by
  induction cs using List.reverseRecOn with
  | nil =>
    refine ⟨rfl, ?_⟩
    intro b
    cases b <;> simp [run_calls, IOState.init, IOState.already_warned, noEarlierOpenFailure]
  | append_singleton cs w ih =>
    rw [run_calls_concat]
    refine ⟨by rw [do_call_trace, ih.1], ?_⟩
    intro b
    rw [do_call_already_warned, noEarlierOpenFailure_concat, ih.2 b, ih.1]

/-- C13, as stated, fails: from the initial state with every `open` failing,
`write_int` on red brightness logs its warning and sets the single static of
`write_int`; the next call, `write_int` on green brightness, is the first
failure to open that endpoint, yet it logs nothing. -/
theorem C13_second_endpoint_counterexample :
    (Env.allOpenFail 1 (Write.int GREEN_LED_FILE 0)).isOpenFailed = true
    ∧ (∀ (k : Nat) (w : Write), [Write.int RED_LED_FILE 0][k]? = some w →
        w.path = GREEN_LED_FILE → (Env.allOpenFail k w).isOpenFailed = false)
    ∧ (run_calls Env.allOpenFail [Write.int RED_LED_FILE 0] IOState.init).log
        = [openWarning RED_LED_FILE]
    ∧ (do_call Env.allOpenFail
          (run_calls Env.allOpenFail [Write.int RED_LED_FILE 0] IOState.init)
          (Write.int GREEN_LED_FILE 0)).log
        = (run_calls Env.allOpenFail [Write.int RED_LED_FILE 0] IOState.init).log := by
  refine ⟨rfl, ?_, ?_, ?_⟩
  · intro k w hk hp
    cases k with
    | zero =>
      simp only [List.getElem?_cons_zero, Option.some.injEq] at hk
      subst hk
      simp [Write.path] at hp
    | succ j => simp at hk
  · simp [run_calls, do_call_log, Env.allOpenFail, Outcome.isOpenFailed, IOState.init,
      IOState.already_warned, Write.isInt, Write.path]
  · rw [do_call_log]
    simp [run_calls, do_call, write_int, Env.allOpenFail, IOState.init,
      IOState.already_warned, Write.isInt]

/-- C13 (amended): over every sequence of calls made from process start, in
every environment, a call logs the warning exactly when its `open` fails and
no earlier call of the same function (`write_int`, respectively `write_str`)
failed to open, whatever the endpoints were; in every other case it logs
nothing. -/
theorem C13_warn_once_per_function (env : Env) (cs : List Write) (w : Write) :
    ((do_call env (run_calls env cs IOState.init) w).log
        = (run_calls env cs IOState.init).log ++ [openWarning w.path]
      ↔ ((env cs.length w).isOpenFailed = true
          ∧ ∀ (k : Nat) (w2 : Write), cs[k]? = some w2 → w2.isInt = w.isInt →
              (env k w2).isOpenFailed = false))
    ∧ ((do_call env (run_calls env cs IOState.init) w).log
        = (run_calls env cs IOState.init).log
      ↔ ¬ ((env cs.length w).isOpenFailed = true
          ∧ ∀ (k : Nat) (w2 : Write), cs[k]? = some w2 → w2.isInt = w.isInt →
              (env k w2).isOpenFailed = false)) := by
  have hinv := run_calls_invariant env cs
  have hflag : (run_calls env cs IOState.init).already_warned w.isInt = 0
      ↔ ∀ (k : Nat) (w2 : Write), cs[k]? = some w2 → w2.isInt = w.isInt →
          (env k w2).isOpenFailed = false := hinv.2 w.isInt
  rw [do_call_log, hinv.1]
  by_cases hc : (env cs.length w).isOpenFailed = true
      ∧ (run_calls env cs IOState.init).already_warned w.isInt = 0
  · have hq : (env cs.length w).isOpenFailed = true
        ∧ ∀ (k : Nat) (w2 : Write), cs[k]? = some w2 → w2.isInt = w.isInt →
            (env k w2).isOpenFailed = false := ⟨hc.1, hflag.1 hc.2⟩
    rw [if_pos hc]
    exact ⟨⟨fun _ => hq, fun _ => rfl⟩, ⟨fun h => absurd h (by simp), fun h => absurd hq h⟩⟩
  · have hq : ¬ ((env cs.length w).isOpenFailed = true
        ∧ ∀ (k : Nat) (w2 : Write), cs[k]? = some w2 → w2.isInt = w.isInt →
            (env k w2).isOpenFailed = false) := fun h => hc ⟨h.1, hflag.2 h.2⟩
    rw [if_neg hc]
    exact ⟨⟨fun h => absurd h (by simp), fun h => absurd h hq⟩, ⟨fun _ => hq, fun _ => rfl⟩⟩

/-! ## Idempotence on the endpoint map (C17) -/

theorem EndpointMap.apply_cons (m : EndpointMap) (w : Write) (ws : List Write) :
    m.apply (w :: ws) = (m.write w).apply ws := rfl

theorem EndpointMap.apply_of_not_mem (ws : List Write) (m : EndpointMap) (e : Endpoint)
    (h : e ∉ ws.map Write.path) : m.apply ws e = m e := by
  induction ws generalizing m with
  | nil => rfl
  | cons w ws ih =>
    simp only [List.map_cons, List.mem_cons, not_or] at h
    rw [EndpointMap.apply_cons, ih _ h.2]
    simp [EndpointMap.write, h.1]

theorem EndpointMap.apply_of_mem (ws : List Write) (m m2 : EndpointMap) (e : Endpoint)
    (h : e ∈ ws.map Write.path) : m.apply ws e = m2.apply ws e := by
  induction ws generalizing m m2 with
  | nil => simp at h
  | cons w ws ih =>
    rw [EndpointMap.apply_cons, EndpointMap.apply_cons]
    by_cases hin : e ∈ ws.map Write.path
    · exact ih _ _ hin
    · rw [EndpointMap.apply_of_not_mem ws _ e hin, EndpointMap.apply_of_not_mem ws _ e hin]
      simp only [List.map_cons, List.mem_cons] at h
      have he : e = w.path := h.resolve_right hin
      simp [EndpointMap.write, he]

theorem EndpointMap.apply_idempotent (m : EndpointMap) (ws : List Write) :
    (m.apply ws).apply ws = m.apply ws := by
  funext e
  by_cases hin : e ∈ ws.map Write.path
  · exact EndpointMap.apply_of_mem ws _ _ e hin
  · rw [EndpointMap.apply_of_not_mem ws _ e hin]

theorem issued_handle_speaker_light_locked (env : Env) (dev : Option light_device_t)
    (g : Globals) (io : IOState) :
    issued io (handle_speaker_light_locked env dev g io)
      = (handle_speaker_light_locked Env.allOk dev g IOState.init).trace :=
  issued_append _ _ _ (handle_speaker_light_locked_trace env dev g io)

theorem on_map_store_then_handle (dev : Option light_device_t) (store : Globals → Globals)
    (f : Globals → IOState → Int × Globals × IOState)
    (hstore : ∀ g, store (store g) = store g)
    (hf : ∀ g io, f g io = (0, store g, handle_speaker_light_locked Env.allOk dev (store g) io))
    (g : Globals) (m : EndpointMap) (io io2 : IOState) :
    (on_map f (on_map f (g, m, io))).1 = (on_map f (g, m, io)).1
    ∧ (on_map f (on_map f (g, m, io))).2.1 = (on_map f (g, m, io)).2.1
    ∧ (on_map f (g, m, io)).1 = (on_map f (g, m, io2)).1
    ∧ (on_map f (g, m, io)).2.1 = (on_map f (g, m, io2)).2.1 := by
  simp only [on_map, hf, hstore, issued_handle_speaker_light_locked,
    EndpointMap.apply_idempotent, and_self]

/-- C17: with all writes succeeding and the endpoints seen as the map from
endpoint to the last value written, for each of `set_light_battery`,
`set_light_notifications` and `set_light_attention`, every handle, every
input state, every prior stored triple and every prior endpoint map: calling
the setter twice in succession leaves the same stored triple and the same
endpoint map as calling it once; and the stored triple and endpoint map after
one call do not depend on the prior input/output state (trace, log, warned
flags), only on the prior triple, the input state and the prior map. -/
theorem C17_idempotent_on_endpoint_map (dev : Option light_device_t) (s : light_state_t)
    (g : Globals) (m : EndpointMap) (io io2 : IOState) :
    ((on_map (set_light_battery Env.allOk dev s)
          (on_map (set_light_battery Env.allOk dev s) (g, m, io))).1
        = (on_map (set_light_battery Env.allOk dev s) (g, m, io)).1
      ∧ (on_map (set_light_battery Env.allOk dev s)
          (on_map (set_light_battery Env.allOk dev s) (g, m, io))).2.1
        = (on_map (set_light_battery Env.allOk dev s) (g, m, io)).2.1
      ∧ (on_map (set_light_battery Env.allOk dev s) (g, m, io)).1
        = (on_map (set_light_battery Env.allOk dev s) (g, m, io2)).1
      ∧ (on_map (set_light_battery Env.allOk dev s) (g, m, io)).2.1
        = (on_map (set_light_battery Env.allOk dev s) (g, m, io2)).2.1)
    ∧ ((on_map (set_light_notifications Env.allOk dev s)
          (on_map (set_light_notifications Env.allOk dev s) (g, m, io))).1
        = (on_map (set_light_notifications Env.allOk dev s) (g, m, io)).1
      ∧ (on_map (set_light_notifications Env.allOk dev s)
          (on_map (set_light_notifications Env.allOk dev s) (g, m, io))).2.1
        = (on_map (set_light_notifications Env.allOk dev s) (g, m, io)).2.1
      ∧ (on_map (set_light_notifications Env.allOk dev s) (g, m, io)).1
        = (on_map (set_light_notifications Env.allOk dev s) (g, m, io2)).1
      ∧ (on_map (set_light_notifications Env.allOk dev s) (g, m, io)).2.1
        = (on_map (set_light_notifications Env.allOk dev s) (g, m, io2)).2.1)
    ∧ ((on_map (set_light_attention Env.allOk dev s)
          (on_map (set_light_attention Env.allOk dev s) (g, m, io))).1
        = (on_map (set_light_attention Env.allOk dev s) (g, m, io)).1
      ∧ (on_map (set_light_attention Env.allOk dev s)
          (on_map (set_light_attention Env.allOk dev s) (g, m, io))).2.1
        = (on_map (set_light_attention Env.allOk dev s) (g, m, io)).2.1
      ∧ (on_map (set_light_attention Env.allOk dev s) (g, m, io)).1
        = (on_map (set_light_attention Env.allOk dev s) (g, m, io2)).1
      ∧ (on_map (set_light_attention Env.allOk dev s) (g, m, io)).2.1
        = (on_map (set_light_attention Env.allOk dev s) (g, m, io2)).2.1) :=
  ⟨on_map_store_then_handle dev (fun g => { g with g_battery := s }) _
      (fun _ => rfl) (fun _ _ => rfl) g m io io2,
   on_map_store_then_handle dev (fun g => { g with g_notification := s }) _
      (fun _ => rfl) (fun _ _ => rfl) g m io io2,
   on_map_store_then_handle dev (fun g => { g with g_attention := s }) _
      (fun _ => rfl) (fun _ _ => rfl) g m io io2⟩

/-! ## Grey colours on the backlight (C19) -/

theorem greyColor_eq_sum (a v : Nat) (hv : v < 256) :
    greyColor a v = 2 ^ 24 * a + (2 ^ 16 * v + (2 ^ 8 * v + v)) := by
  have h1 : v < 2 ^ 8 := by norm_num; exact hv
  have h2 : 2 ^ 8 * v + v < 2 ^ 16 := by norm_num; omega
  have h3 : 2 ^ 16 * v + (2 ^ 8 * v + v) < 2 ^ 24 := by norm_num; omega
  unfold greyColor
  rw [Nat.or_assoc, Nat.or_assoc, Nat.shiftLeft_eq, Nat.shiftLeft_eq, Nat.shiftLeft_eq,
    Nat.mul_comm a, Nat.mul_comm v (2 ^ 16), Nat.mul_comm v (2 ^ 8),
    ← Nat.mul_add_lt_is_or h1, ← Nat.mul_add_lt_is_or h2, ← Nat.mul_add_lt_is_or h3]

/-- C19: for every grey colour `a<<24 | v<<16 | v<<8 | v` with `v` in 0..255,
whatever the top part `a` and the flash fields, `rgb_to_brightness` returns `v`
exactly, and `set_light_backlight` with a non-null handle issues the single
call `write_int` of `v` to the backlight brightness file. -/
theorem C19_grey_is_identity (env : Env) (d : light_device_t) (a v : Nat) (m on_ off : Int)
    (g : Globals) (io : IOState) (hv : v < 256) :
    rgb_to_brightness
        { color := greyColor a v, flashMode := m, flashOnMS := on_, flashOffMS := off }
      = (v : Int)
    ∧ issued io (set_light_backlight env (some d)
        { color := greyColor a v, flashMode := m, flashOnMS := on_, flashOffMS := off }
        g io).2.2
      = [Write.int LCD_FILE (v : Int)] := by
  have hrgb : rgb_to_brightness
        { color := greyColor a v, flashMode := m, flashOnMS := on_, flashOffMS := off }
      = (v : Int) := by
    rw [rgb_to_brightness_eq]
    simp only [greyColor_eq_sum a v hv]
    have hq16 : (2 ^ 24 * a + (2 ^ 16 * v + (2 ^ 8 * v + v))) / 2 ^ 16 = 2 ^ 8 * a + v := by
      apply Nat.div_eq_of_lt_le <;> norm_num <;> omega
    have hq8 : (2 ^ 24 * a + (2 ^ 16 * v + (2 ^ 8 * v + v))) / 2 ^ 8
        = 2 ^ 16 * a + 2 ^ 8 * v + v := by
      apply Nat.div_eq_of_lt_le <;> norm_num <;> omega
    have hr : redByte (2 ^ 24 * a + (2 ^ 16 * v + (2 ^ 8 * v + v))) = v := by
      unfold redByte; rw [hq16]; norm_num; omega
    have hg : greenByte (2 ^ 24 * a + (2 ^ 16 * v + (2 ^ 8 * v + v))) = v := by
      unfold greenByte; rw [hq8]; norm_num; omega
    have hb : blueByte (2 ^ 24 * a + (2 ^ 16 * v + (2 ^ 8 * v + v))) = v := by
      unfold blueByte; norm_num; omega
    rw [hr, hg, hb]
    have : (77 * v + 150 * v + 29 * v) / 2 ^ 8 = v := by norm_num; omega
    rw [this]
  refine ⟨hrgb, ?_⟩
  apply issued_append
  simp only [set_light_backlight, write_int_trace, hrgb]

/-- Witness of C19: white with a full top byte (0xFFFFFFFF) gives 255, and
black (0x00000000) gives 0. -/
theorem C19_grey_is_identity_witness :
    (255 : Nat) < 256
    ∧ greyColor 0xFF 255 = 0xFFFFFFFF
    ∧ rgb_to_brightness
        { color := greyColor 0xFF 255, flashMode := 0, flashOnMS := 0, flashOffMS := 0 } = 255
    ∧ rgb_to_brightness
        { color := greyColor 0 0, flashMode := 0, flashOnMS := 0, flashOffMS := 0 } = 0 :=
  ⟨by decide, by decide,
   (C19_grey_is_identity Env.allOk { version := 0 } 0xFF 255 0 0 0 Globals.init IOState.init
      (by decide)).1,
   (C19_grey_is_identity Env.allOk { version := 0 } 0 0 0 0 0 Globals.init IOState.init
      (by decide)).1⟩

/-! ## A lit but dim winner (C20) -/

theorem handle_speaker_light_locked_eq_winner (env : Env) (dev : Option light_device_t)
    (g : Globals) (io : IOState) :
    handle_speaker_light_locked env dev g io
      = (set_speaker_light_locked env dev (winner g) io).2 := by
  unfold handle_speaker_light_locked winner
  by_cases ha : Lit g.g_attention
  · rw [if_pos ((is_lit_ne_zero_iff _).2 ha), if_pos ha]
  · rw [if_neg (fun h => ha ((is_lit_ne_zero_iff _).1 h)), if_neg ha]
    by_cases hn : Lit g.g_notification
    · rw [if_pos ((is_lit_ne_zero_iff _).2 hn), if_pos hn]
    · rw [if_neg (fun h => hn ((is_lit_ne_zero_iff _).1 h)), if_neg hn]

theorem resetWrites_leave_leds_off (m : EndpointMap) :
    m.apply resetWrites RED_LED_FILE = some (Value.int 0)
    ∧ m.apply resetWrites GREEN_LED_FILE = some (Value.int 0)
    ∧ m.apply resetWrites BLUE_LED_FILE = some (Value.int 0)
    ∧ m.apply resetWrites RED_TRIGGER_FILE = some (Value.str "none")
    ∧ m.apply resetWrites GREEN_TRIGGER_FILE = some (Value.str "none")
    ∧ m.apply resetWrites BLUE_TRIGGER_FILE = some (Value.str "none") := by
  simp [EndpointMap.apply, resetWrites, EndpointMap.write, Write.path, Write.value]

/-- C20, as stated, fails for the null handle: with attention 0x00010101
(lit, every byte below 128) and notification 0x00FF0000, a call with
`dev = NULL` issues no write at all, not the six reset writes. -/
theorem C20_null_handle_counterexample :
    Lit (winner
        { g_attention := { color := 0x00010101, flashMode := 0, flashOnMS := 0, flashOffMS := 0 }
          g_notification :=
            { color := 0x00FF0000, flashMode := 0, flashOnMS := 0, flashOffMS := 0 }
          g_battery := light_state_t.zero })
    ∧ redByte 0x00010101 < 128 ∧ greenByte 0x00010101 < 128 ∧ blueByte 0x00010101 < 128
    ∧ issued IOState.init (handle_speaker_light_locked Env.allOk none
        { g_attention := { color := 0x00010101, flashMode := 0, flashOnMS := 0, flashOffMS := 0 }
          g_notification :=
            { color := 0x00FF0000, flashMode := 0, flashOnMS := 0, flashOffMS := 0 }
          g_battery := light_state_t.zero } IOState.init) = []
    ∧ issued IOState.init (handle_speaker_light_locked Env.allOk none
        { g_attention := { color := 0x00010101, flashMode := 0, flashOnMS := 0, flashOffMS := 0 }
          g_notification :=
            { color := 0x00FF0000, flashMode := 0, flashOnMS := 0, flashOffMS := 0 }
          g_battery := light_state_t.zero } IOState.init) ≠ resetWrites := by
  have h : issued IOState.init (handle_speaker_light_locked Env.allOk none
        { g_attention := { color := 0x00010101, flashMode := 0, flashOnMS := 0, flashOffMS := 0 }
          g_notification :=
            { color := 0x00FF0000, flashMode := 0, flashOnMS := 0, flashOffMS := 0 }
          g_battery := light_state_t.zero } IOState.init) = [] := by
    rw [handle_speaker_light_locked_eq_winner, set_speaker_light_locked_null]
    rfl
  refine ⟨by decide, by decide, by decide, by decide, h, ?_⟩
  rw [h]
  simp [resetWrites]

/-- C20 (amended): whenever all three colour bytes of the arbitration winner
are below 128, the winner being lit or not, then for every non-null handle the
calls issued by `handle_speaker_light_locked` are exactly the six reset
writes, whatever the other two stored states are; on the endpoint map these
leave the three LED brightness files at 0 and the three triggers at "none". -/
theorem C20_dim_winner_all_off (env : Env) (d : light_device_t) (g : Globals)
    (io : IOState) (m : EndpointMap)
    (hr : redByte (winner g).color < 128)
    (hg : greenByte (winner g).color < 128) (hb : blueByte (winner g).color < 128) :
    (handle_speaker_light_locked env (some d) g io).trace = io.trace ++ resetWrites
    ∧ issued io (handle_speaker_light_locked env (some d) g io) = resetWrites
    ∧ (∀ e ∈ brightnessFiles,
        m.apply (issued io (handle_speaker_light_locked env (some d) g io)) e
          = some (Value.int 0))
    ∧ (∀ e ∈ triggerFiles,
        m.apply (issued io (handle_speaker_light_locked env (some d) g io)) e
          = some (Value.str "none")) := by
  have hblink : specBlinkWrites (winner g) = [] := by
    simp [specBlinkWrites, Nat.not_le.2 hr, Nat.not_le.2 hg, Nat.not_le.2 hb]
  have hsteady : specSteadyWrites (winner g) = [] := by
    simp [specSteadyWrites, Nat.not_le.2 hr, Nat.not_le.2 hg, Nat.not_le.2 hb]
  have ht : (handle_speaker_light_locked env (some d) g io).trace
      = io.trace ++ resetWrites := by
    rw [handle_speaker_light_locked_eq_winner, set_speaker_light_locked_trace, hblink,
      hsteady, ite_self, List.append_nil]
  have hi : issued io (handle_speaker_light_locked env (some d) g io) = resetWrites :=
    issued_append _ _ _ ht
  have hoff := resetWrites_leave_leds_off m
  refine ⟨ht, hi, ?_, ?_⟩
  · intro e he
    rw [hi]
    simp only [brightnessFiles, List.mem_cons, List.mem_singleton, List.not_mem_nil,
      or_false] at he
    rcases he with he | he | he <;> subst he
    · exact hoff.1
    · exact hoff.2.1
    · exact hoff.2.2.1
  · intro e he
    rw [hi]
    simp only [triggerFiles, List.mem_cons, List.mem_singleton, List.not_mem_nil,
      or_false] at he
    rcases he with he | he | he <;> subst he
    · exact hoff.2.2.2.1
    · exact hoff.2.2.2.2.1
    · exact hoff.2.2.2.2.2

/-- Witness of C20 (amended): attention 0x00010101 with flash mode None wins
over notification 0x00FF0000, whose red byte is 255, and a non-null handle
gets exactly the six reset writes. -/
theorem C20_dim_winner_all_off_witness :
    Lit { color := 0x00010101, flashMode := 0, flashOnMS := 0, flashOffMS := 0 }
    ∧ 128 ≤ redByte 0x00FF0000
    ∧ issued IOState.init (handle_speaker_light_locked Env.allOk (some { version := 0 })
        { g_attention := { color := 0x00010101, flashMode := 0, flashOnMS := 0, flashOffMS := 0 }
          g_notification :=
            { color := 0x00FF0000, flashMode := 0, flashOnMS := 0, flashOffMS := 0 }
          g_battery := light_state_t.zero } IOState.init) = resetWrites :=
  ⟨by decide, by decide,
   (C20_dim_winner_all_off Env.allOk { version := 0 }
      { g_attention := { color := 0x00010101, flashMode := 0, flashOnMS := 0, flashOffMS := 0 }
        g_notification :=
          { color := 0x00FF0000, flashMode := 0, flashOnMS := 0, flashOffMS := 0 }
        g_battery := light_state_t.zero }
      IOState.init (fun _ => none) (by decide) (by decide) (by decide)).2.1⟩

end Lights
